import Mathlib

/-!
Verification of the sunatlib SOAP response-classification and ticket-polling
engine.  Go strings are modelled as lists of characters; all markers and
offsets used by the code are ASCII, so character indices coincide with the
byte indices the Go code computes.  Durations (`time.Duration`, an int64 of
nanoseconds) are modelled as `Int`.
-/

set_option autoImplicit false

/-- Go string model: a list of characters. -/
abbrev GoStr := List Char

/-- Conversion from Lean string literals to the Go string model. -/
def gs (s : String) : GoStr := s.toList

/-- Model of Go `strings.Index`: first index at which `sub` occurs in `s`,
`none` when absent (Go returns `-1`); the empty substring occurs at 0. -/
def goIndex (s sub : GoStr) : Option Nat :=
  match s with
  | [] => if sub = [] then some 0 else none
  | c :: t =>
    if sub.isPrefixOf (c :: t) then some 0
    else (goIndex t sub).map (· + 1)

/-- Model of Go `strings.Contains`. -/
def goContains (s sub : GoStr) : Bool :=
  (goIndex s sub).isSome

/-- The extraction idiom used throughout the parsers:
`if start := strings.Index(s, op); start != -1 { start += len(op);
 if end := strings.Index(s[start:], cl); end != -1 { s[start : start+end] } }`.
Returns `none` exactly when the Go code leaves the field untouched. -/
def extractBetween (s op cl : GoStr) : Option GoStr :=
  match goIndex s op with
  | none => none
  | some i =>
    let rest := s.drop (i + op.length)
    match goIndex rest cl with
    | none => none
    | some e => some (rest.take e)

/-- Left-to-right non-overlapping replacement with an explicit fuel, used to
make the recursion structural (each step consumes at least one character, and
the fuel starts at the length of the string, so the fuel never runs out on
calls from `goReplaceAll`). -/
def goReplaceAllFuel : Nat → GoStr → GoStr → GoStr → GoStr
  | 0, s, _, _ => s
  | fuel + 1, s, pat, rep =>
    match s with
    | [] => []
    | c :: t =>
      if pat.isPrefixOf (c :: t) then
        rep ++ goReplaceAllFuel fuel ((c :: t).drop pat.length) pat rep
      else c :: goReplaceAllFuel fuel t pat rep

/-- Model of Go `strings.ReplaceAll`: replace every non-overlapping occurrence
of `pat` by `rep`, scanning left to right.  With an empty pattern Go inserts
`rep` before every character and at the end. -/
def goReplaceAll (s pat rep : GoStr) : GoStr :=
  if pat = [] then rep ++ s.foldr (fun c acc => c :: (rep ++ acc)) []
  else goReplaceAllFuel s.length s pat rep

/-- The literal state-determination chain of `parseValidationResponse`
(src/validation.go lines 279-291), abstracted over the eight
`strings.Contains` results `aux1` .. `aux8`. -/
def classifyFlags (b1 b2 b3 b4 b5 b6 b7 b8 : Bool) : GoStr :=
  let state := gs "NO_INFORMADO"
  let state := if b1 || b2 then gs "NO_INFORMADO" else state
  let state := if b3 then gs "ANULADO" else state
  let state := if b4 || b7 then gs "RECHAZADO" else state
  let state := if b5 || (b6 && !b2) || b8 then gs "VALIDO" else state
  state

/-- The message classifier of `parseValidationResponse`
(src/validation.go lines 268-291): the eight substring signals `aux1` .. `aux8`
fed into the state-determination chain. -/
def classifyMessage (message : GoStr) : GoStr :=
  classifyFlags
    (goContains message (gs "no existe en los registros de SUNAT"))
    (goContains message (gs "no ha sido informada"))
    (goContains message (gs "BAJA"))
    (goContains message (gs "RECHAZADO"))
    (goContains message (gs "es un comprobante de pago válido"))
    (goContains message (gs "ha sido informada"))
    (goContains message (gs "rechazada"))
    (goContains message (gs "AUTORIZADO (Con autorización de imprenta)"))

/-- Result of `parseValidationResponse` (src/validation.go); the fields the
parser writes. -/
structure ValidationResult where
  Success : Bool
  IsValid : Bool
  StatusCode : GoStr
  StatusMessage : GoStr
  State : GoStr
  ErrorDetails : GoStr
deriving DecidableEq, Repr

/-- Status-code extraction of `parseValidationResponse`
(src/validation.go lines 247-253): `"UNKNOWN"` when no complete
`<statusCode>..</statusCode>` pair is found. -/
def statusCodeOf (responseBody : GoStr) : GoStr :=
  match extractBetween responseBody (gs "<statusCode>") (gs "</statusCode>") with
  | some v => v
  | none => gs "UNKNOWN"

/-- Status-message extraction of `parseValidationResponse`
(src/validation.go lines 256-262): `"Unable to parse response"` when no
complete `<statusMessage>..</statusMessage>` pair is found. -/
def statusMessageOf (responseBody : GoStr) : GoStr :=
  match extractBetween responseBody (gs "<statusMessage>") (gs "</statusMessage>") with
  | some v => v
  | none => gs "Unable to parse response"

/-- The `switch state` block of `parseValidationResponse`
(src/validation.go lines 294-310): validity flag and error details per state. -/
def validityDetails (state : GoStr) : Bool × GoStr :=
  if state = gs "VALIDO" then (true, gs "Documento válido en SUNAT")
  else if state = gs "ANULADO" then (false, gs "Documento anulado o dado de baja")
  else if state = gs "RECHAZADO" then (false, gs "Documento rechazado por SUNAT")
  else if state = gs "NO_INFORMADO" then (false, gs "Documento no informado a SUNAT")
  else (false, gs "Estado no determinado")

/-- `parseValidationResponse` (src/validation.go lines 238-313). -/
def parseValidationResponse (responseBody : GoStr) (httpStatusCode : Int) : ValidationResult :=
  let message := statusMessageOf responseBody
  let state := classifyMessage message
  let vd := validityDetails state
  { Success := httpStatusCode == 200
    IsValid := vd.1
    StatusCode := statusCodeOf responseBody
    StatusMessage := message
    State := state
    ErrorDetails := vd.2 }

/-- Base64 digit value of a character, per the standard alphabet used by Go
`base64.StdEncoding`. -/
def b64Val (c : Char) : Option Nat :=
  if 'A' ≤ c ∧ c ≤ 'Z' then some (c.toNat - 65)
  else if 'a' ≤ c ∧ c ≤ 'z' then some (c.toNat - 97 + 26)
  else if '0' ≤ c ∧ c ≤ '9' then some (c.toNat - 48 + 52)
  else if c = '+' then some 62
  else if c = '/' then some 63
  else none

/-- Model of Go `base64.StdEncoding` decoding of a newline-free input:
complete 4-character quanta, with `=` padding allowed only in the final
quantum; trailing bits are ignored as in Go's default (non-strict) mode;
any other irregularity is a decode error (`none`). -/
def base64DecodeQuanta : List Char → Option (List Nat)
  | [] => some []
  | a :: b :: c :: d :: rest =>
    match b64Val a, b64Val b with
    | some va, some vb =>
      if c = '=' ∧ d = '=' ∧ rest = [] then
        some [va * 4 + vb / 16]
      else
        match b64Val c with
        | some vc =>
          if d = '=' ∧ rest = [] then
            some [va * 4 + vb / 16, (vb % 16) * 16 + vc / 4]
          else
            match b64Val d with
            | some vd =>
              (base64DecodeQuanta rest).map
                (fun t => (va * 4 + vb / 16) :: ((vb % 16) * 16 + vc / 4) :: ((vc % 4) * 64 + vd) :: t)
            | none => none
        | none => none
    | _, _ => none
  | _ => none

/-- Model of Go `base64.StdEncoding.DecodeString`: carriage returns and
newlines are ignored, then the input is decoded in 4-character quanta. -/
def base64Decode (s : GoStr) : Option (List Nat) :=
  base64DecodeQuanta (s.filter (fun c => !(c = '\r' || c = '\n')))

/-- `TicketStatusResponse` (src/examples/integrated_example.go lines 622-633);
the fields the parser and the polling loop read or write.  `ApplicationResponse`
is `none` for Go's nil slice, `some bytes` once a decode succeeded; `Error`
models the Go `error` field as an optional message string. -/
structure TicketStatusResponse where
  Success : Bool := false
  Message : GoStr := []
  Ticket : GoStr := []
  StatusCode : GoStr := []
  StatusDescription : GoStr := []
  ApplicationResponse : Option (List Nat) := none
  Error : Option GoStr := none
deriving DecidableEq, Repr

/-- `GetTicketStatusDescription` (src/examples/integrated_example.go
lines 636-647). -/
def GetTicketStatusDescription (r : TicketStatusResponse) : GoStr :=
  if r.StatusCode = gs "0" then gs "Procesado correctamente"
  else if r.StatusCode = gs "98" then gs "En proceso"
  else if r.StatusCode = gs "99" then gs "Procesado con errores"
  else r.StatusDescription

/-- `IsProcessed` (src/examples/integrated_example.go lines 650-652). -/
def IsProcessed (r : TicketStatusResponse) : Bool :=
  r.StatusCode == gs "0" || r.StatusCode == gs "99"

/-- The entity-decoding chain applied to extracted faultstrings by
`parseTicketStatusResponse` (src/examples/integrated_example.go
lines 744-748): the four replacements, in source order. -/
def decodeTicketEntities (m : GoStr) : GoStr :=
  let m := goReplaceAll m (gs "&#243;") (gs "ó")
  let m := goReplaceAll m (gs "&lt;") (gs "<")
  let m := goReplaceAll m (gs "&gt;") (gs ">")
  let m := goReplaceAll m (gs "&amp;") (gs "&")
  m

/-- The `<content>` extraction-and-decode step of `parseTicketStatusResponse`
(src/examples/integrated_example.go lines 772-781 and 788-796): the decoded
bytes are stored only when extraction and base64 decoding both succeed. -/
def applyContentDecode (responseStr : GoStr) (r : TicketStatusResponse) : TicketStatusResponse :=
  match extractBetween responseStr (gs "<content>") (gs "</content>") with
  | some contentB64 =>
    match base64Decode contentB64 with
    | some decodedContent => { r with ApplicationResponse := some decodedContent }
    | none => r
  | none => r

/-- `parseTicketStatusResponse` (src/examples/integrated_example.go
lines 729-805).  The Go function always returns a nil error, so it is
modelled as a total function to the response struct. -/
def parseTicketStatusResponse (responseStr : GoStr) (ticket : GoStr) : TicketStatusResponse :=
  let response : TicketStatusResponse := { Ticket := ticket }
  if goContains responseStr (gs "<soap-env:Fault") || goContains responseStr (gs "<soap:Fault") then
    let response := { response with Success := false }
    match extractBetween responseStr (gs "<faultstring>") (gs "</faultstring>") with
    | some m => { response with Message := decodeTicketEntities m }
    | none => response
  else if goContains responseStr (gs "<br:getStatusResponse") || goContains responseStr (gs "getStatusResponse") then
    let response := { response with Success := true }
    let response :=
      match extractBetween responseStr (gs "<statusCode>") (gs "</statusCode>") with
      | some v => { response with StatusCode := v }
      | none => response
    let response := { response with StatusDescription := GetTicketStatusDescription response }
    if response.StatusCode = gs "0" then
      { applyContentDecode responseStr response with
          Message := gs "Comunicación de baja procesada exitosamente" }
    else if response.StatusCode = gs "98" then
      { response with Message := gs "Comunicación de baja en proceso de validación" }
    else if response.StatusCode = gs "99" then
      let response := { response with Message := gs "Comunicación de baja procesada con errores" }
      applyContentDecode responseStr response
    else response
  else
    { response with
        Success := false
        Message := gs "Respuesta no reconocida de SUNAT para consulta de ticket" }

/-- `VoidedDocumentsResponse` (src/examples/integrated_example.go); the fields
`parseVoidedDocumentsResponse` writes. -/
structure VoidedDocumentsResponse where
  Success : Bool := false
  Message : GoStr := []
  Ticket : GoStr := []
deriving DecidableEq, Repr

/-- `parseVoidedDocumentsResponse` (src/examples/integrated_example.go
lines 470-513).  Note: its fault branch decodes only the `&#243;` entity. -/
def parseVoidedDocumentsResponse (responseStr : GoStr) : VoidedDocumentsResponse :=
  let response : VoidedDocumentsResponse := {}
  if goContains responseStr (gs "<soap-env:Fault") then
    let response := { response with Success := false }
    match extractBetween responseStr (gs "<faultstring>") (gs "</faultstring>") with
    | some m => { response with Message := goReplaceAll m (gs "&#243;") (gs "ó") }
    | none => response
  else if goContains responseStr (gs "<br:sendSummaryResponse") then
    let response := { response with
        Success := true
        Message := gs "Comunicación de baja enviada exitosamente" }
    match extractBetween responseStr (gs "<ticket>") (gs "</ticket>") with
    | some t => { response with Ticket := t }
    | none => response
  else
    { response with
        Success := false
        Message := gs "Respuesta no reconocida de SUNAT" }

/-- `SUNATResponse` (src/sunat.go lines 167-173); the fields `parseResponse`
writes. -/
structure SUNATResponse where
  Success : Bool := false
  Message : GoStr := []
  ApplicationResponse : Option (List Nat) := none
deriving DecidableEq, Repr

/-- `parseResponse` (src/sunat.go lines 176-221).  Note: its fault branch
decodes only the `&#243;` entity. -/
def parseResponse (responseStr : GoStr) : SUNATResponse :=
  let response : SUNATResponse := {}
  if goContains responseStr (gs "<soap-env:Fault") then
    let response := { response with Success := false }
    match extractBetween responseStr (gs "<faultstring>") (gs "</faultstring>") with
    | some m => { response with Message := goReplaceAll m (gs "&#243;") (gs "ó") }
    | none => response
  else if goContains responseStr (gs "<br:sendBillResponse") then
    let response := { response with
        Success := true
        Message := gs "Documento enviado exitosamente" }
    match extractBetween responseStr (gs "<applicationResponse>") (gs "</applicationResponse>") with
    | some b64Data =>
      match base64Decode b64Data with
      | some appResponse => { response with ApplicationResponse := some appResponse }
      | none => response
    | none => response
  else
    { response with
        Success := false
        Message := gs "Respuesta no reconocida de SUNAT" }

/-- 30 seconds in nanoseconds: the default poll interval of
`WaitForTicketProcessing`. -/
def thirtySeconds : Int := 30 * 1000000000

/-- The timeout message written by `WaitForTicketProcessing`
(src/examples/integrated_example.go line 832). -/
def timeoutMessage : GoStr := gs "Timeout esperando procesamiento del ticket"

/-- Outcome of the polling loop: the returned response together with the
number of ticket queries issued and the number of sleeps performed. -/
structure PollResult where
  response : TicketStatusResponse
  queries : Nat
  sleeps : Nat
deriving DecidableEq, Repr

/-- The polling loop body of `WaitForTicketProcessing`
(src/examples/integrated_example.go lines 815-839).  `q n` is the result of
the (n+1)-st call of `QueryVoidedDocumentsTicket` — either a response or a
transport error; `elapsed` is `time.Since(startTime)` at loop entry, which
grows by one poll interval per sleep.  The positivity hypothesis on the
interval reflects the normalisation done before the loop starts. -/
def waitLoop (q : Nat → Except GoStr TicketStatusResponse) (maxWaitTime interval : Int)
    (hI : 0 < interval) (n : Nat) (elapsed : Int) : Except GoStr PollResult :=
  match q n with
  | .error e => .error ((gs "error querying ticket: ") ++ e)
  | .ok response =>
    if !response.Success then .ok ⟨response, n + 1, n⟩
    else if IsProcessed response then .ok ⟨response, n + 1, n⟩
    else if hT : maxWaitTime ≤ elapsed then
      .ok ⟨{ response with Message := timeoutMessage }, n + 1, n⟩
    else
      waitLoop q maxWaitTime interval hI (n + 1) (elapsed + interval)
termination_by (maxWaitTime - elapsed).toNat
decreasing_by
  simp_wf
  omega

/-- `WaitForTicketProcessing` (src/examples/integrated_example.go
lines 808-840): a non-positive poll interval defaults to 30 seconds, then the
polling loop runs from zero elapsed time. -/
def WaitForTicketProcessing (q : Nat → Except GoStr TicketStatusResponse)
    (maxWaitTime pollInterval : Int) : Except GoStr PollResult :=
  if h : pollInterval ≤ 0 then
    waitLoop q maxWaitTime thirtySeconds (by decide) 0 0
  else
    waitLoop q maxWaitTime pollInterval (by omega) 0 0

/-- The per-ticket step of `BatchQueryTickets`
(src/examples/integrated_example.go lines 850-863): a query error is captured
into an error response for that ticket, a successful query contributes its
response unchanged. -/
def itemOutcome (q : GoStr → Except GoStr TicketStatusResponse) (ticket : GoStr) :
    TicketStatusResponse :=
  match q ticket with
  | .ok response => response
  | .error e =>
    { Success := false
      Ticket := ticket
      Message := (gs "Error querying ticket: ") ++ e
      Error := some e }

/-- The accumulating loop of `BatchQueryTickets`
(src/examples/integrated_example.go lines 850-866): responses are appended in
input order; the 100ms sleep between calls has no observable effect on the
returned value and is not modelled. -/
def batchLoop (q : GoStr → Except GoStr TicketStatusResponse) :
    List GoStr → List TicketStatusResponse → List TicketStatusResponse
  | [], responses => responses
  | ticket :: rest, responses => batchLoop q rest (responses ++ [itemOutcome q ticket])

/-- `BatchQueryTickets` (src/examples/integrated_example.go lines 843-869). -/
def BatchQueryTickets (q : GoStr → Except GoStr TicketStatusResponse)
    (tickets : List GoStr) : Except GoStr (List TicketStatusResponse) :=
  if tickets = [] then .error (gs "no tickets provided")
  else .ok (batchLoop q tickets [])

/-- The `getStatusResponse` body used in counterexamples: it parses as a
successful ticket-status response but carries no `<statusCode>` element, so
the parsed outcome has an empty status code. -/
def blankCodeBody : GoStr := gs "<x>getStatusResponse</x>"

/-- A `getStatusResponse` body with status code `0`. -/
def doneBody : GoStr := gs "<x:getStatusResponse><statusCode>0</statusCode>"

/-- A `getStatusResponse` body with status code `98`. -/
def inProgressBody : GoStr := gs "<x:getStatusResponse><statusCode>98</statusCode>"

/-- Scripted query stream for the polling counterexample: the first call
yields the parsed blank-status-code outcome, every later call the parsed
status-`0` outcome. -/
def blankThenDoneQ : Nat → Except GoStr TicketStatusResponse := fun n =>
  if n = 0 then .ok (parseTicketStatusResponse blankCodeBody (gs "T"))
  else .ok (parseTicketStatusResponse doneBody (gs "T"))

/-- Scripted query stream: two in-progress (`98`) outcomes, then a
processed (`0`) outcome. -/
def scripted980Q : Nat → Except GoStr TicketStatusResponse := fun n =>
  if n ≤ 1 then .ok (parseTicketStatusResponse inProgressBody (gs "T"))
  else .ok (parseTicketStatusResponse doneBody (gs "T"))

/-- Scripted query stream that always reports in-progress (`98`). -/
def always98Q : Nat → Except GoStr TicketStatusResponse := fun _ =>
  .ok (parseTicketStatusResponse inProgressBody (gs "T"))

/-- Scripted per-ticket query for the batch witness: ticket `A` fails with a
transport error, every other ticket succeeds with the processed outcome. -/
def batchDemoQ : GoStr → Except GoStr TicketStatusResponse := fun t =>
  if t = gs "A" then .error (gs "connection refused")
  else .ok (parseTicketStatusResponse doneBody t)

/-- A validation response body whose status message contains both a
"not reported" phrase and the "valid" phrase. -/
def validoWitnessBody : GoStr :=
  gs "<statusMessage>el documento no ha sido informada y es un comprobante de pago válido</statusMessage>"

/-- A faulted ticket-status body that also carries a coincidental
`<statusCode>0</statusCode>` substring and entities in its faultstring. -/
def faultWitnessBody : GoStr :=
  gs "<soap:Fault><faultstring>No v&#243;lido &lt;x&gt; &amp; y</faultstring><statusCode>0</statusCode>"

/-- Scripted query stream whose every call yields the parsed outcome of an
unrecognised body (Success false). -/
def unrecognizedQ : Nat → Except GoStr TicketStatusResponse := fun _ =>
  .ok (parseTicketStatusResponse (gs "zzz") (gs "T"))

/-- Positivity of the poll interval 1, used by concrete `waitLoop` calls. -/
def posOneInt : (0 : Int) < 1 := by decide

/-- A status-0 body with a well-formed base64 content element (`QUJD`). -/
def contentOkBody : GoStr :=
  gs "<x:getStatusResponse><statusCode>0</statusCode><content>QUJD</content>"

/-- A status-0 body with a malformed base64 content element (`!!!!`). -/
def contentBadBody : GoStr :=
  gs "<x:getStatusResponse><statusCode>0</statusCode><content>!!!!</content>"

/-- A status-98 body carrying a content element. -/
def content98Body : GoStr :=
  gs "<x:getStatusResponse><statusCode>98</statusCode><content>QUJD</content>"

/-- A faulted body whose faultstring contains the `&lt;` entity, which only
the ticket-status parser decodes. -/
def undecodedFaultBody : GoStr := gs "<soap-env:Fault><faultstring>a&lt;b</faultstring>"

/-- A faulted body whose faultstring contains all four entities. -/
def allEntitiesFaultBody : GoStr :=
  gs "<soap-env:Fault><faultstring>x&#243;&lt;&gt;&amp;y</faultstring>"

theorem classifyFlags_precedence (b1 b2 b3 b4 b5 b6 b7 b8 : Bool) :
    classifyFlags b1 b2 b3 b4 b5 b6 b7 b8 =
      (if b5 || (b6 && !b2) || b8 then gs "VALIDO"
       else if b4 || b7 then gs "RECHAZADO"
       else if b3 then gs "ANULADO"
       else gs "NO_INFORMADO") := by
  revert b1 b2 b3 b4 b5 b6 b7 b8
  decide

theorem classifyFlags_mem (b1 b2 b3 b4 b5 b6 b7 b8 : Bool) :
    classifyFlags b1 b2 b3 b4 b5 b6 b7 b8 = gs "VALIDO" ∨
    classifyFlags b1 b2 b3 b4 b5 b6 b7 b8 = gs "ANULADO" ∨
    classifyFlags b1 b2 b3 b4 b5 b6 b7 b8 = gs "RECHAZADO" ∨
    classifyFlags b1 b2 b3 b4 b5 b6 b7 b8 = gs "NO_INFORMADO" := by
  revert b1 b2 b3 b4 b5 b6 b7 b8
  decide

theorem waitLoop_query_error (q : Nat → Except GoStr TicketStatusResponse)
    (W I : Int) (hI : 0 < I) (n : Nat) (el : Int) (e : GoStr)
    (hq : q n = .error e) :
    waitLoop q W I hI n el = .error ((gs "error querying ticket: ") ++ e) := by
  rw [waitLoop.eq_def, hq]

theorem waitLoop_return_failure (q : Nat → Except GoStr TicketStatusResponse)
    (W I : Int) (hI : 0 < I) (n : Nat) (el : Int) (r : TicketStatusResponse)
    (hq : q n = .ok r) (hS : r.Success = false) :
    waitLoop q W I hI n el = .ok ⟨r, n + 1, n⟩ := by
  rw [waitLoop.eq_def, hq]
  simp [hS]

theorem waitLoop_return_processed (q : Nat → Except GoStr TicketStatusResponse)
    (W I : Int) (hI : 0 < I) (n : Nat) (el : Int) (r : TicketStatusResponse)
    (hq : q n = .ok r) (hP : IsProcessed r = true) :
    waitLoop q W I hI n el = .ok ⟨r, n + 1, n⟩ := by
  rw [waitLoop.eq_def, hq]
  cases hS : r.Success <;> simp [hS, hP]

theorem waitLoop_return_timeout (q : Nat → Except GoStr TicketStatusResponse)
    (W I : Int) (hI : 0 < I) (n : Nat) (el : Int) (r : TicketStatusResponse)
    (hq : q n = .ok r) (hS : r.Success = true) (hP : IsProcessed r = false)
    (hT : W ≤ el) :
    waitLoop q W I hI n el = .ok ⟨{ r with Message := timeoutMessage }, n + 1, n⟩ := by
  rw [waitLoop.eq_def, hq]
  simp [hS, hP, hT]

theorem waitLoop_step (q : Nat → Except GoStr TicketStatusResponse)
    (W I : Int) (hI : 0 < I) (n : Nat) (el : Int) (r : TicketStatusResponse)
    (hq : q n = .ok r) (hS : r.Success = true) (hP : IsProcessed r = false)
    (hT : ¬ W ≤ el) :
    waitLoop q W I hI n el = waitLoop q W I hI (n + 1) (el + I) := by
  rw [waitLoop.eq_def, hq]
  simp [hS, hP, hT]

theorem batchLoop_eq_append_map (q : GoStr → Except GoStr TicketStatusResponse)
    (tickets : List GoStr) :
    ∀ acc, batchLoop q tickets acc = acc ++ tickets.map (itemOutcome q) := by
  induction tickets with
  | nil => intro acc; simp [batchLoop]
  | cons t rest ih => intro acc; simp [batchLoop, ih]

theorem isProcessed_of_98 (r : TicketStatusResponse) (h : r.StatusCode = gs "98") :
    IsProcessed r = false := by
  simp [IsProcessed, h]
  decide

theorem waitLoop_allInProgress (q : Nat → Except GoStr TicketStatusResponse)
    (W I : Int) (hI : 0 < I)
    (hq : ∀ n, ∃ r, q n = .ok r ∧ r.Success = true ∧ r.StatusCode = gs "98") :
    ∀ fuel n el, (W - el).toNat ≤ fuel →
      ∃ k r, n ≤ k ∧ q k = .ok r ∧
        waitLoop q W I hI n el = .ok ⟨{ r with Message := timeoutMessage }, k + 1, k⟩ := by
  intro fuel
  induction fuel with
  | zero =>
    intro n el hf
    obtain ⟨r, hqn, hS, h98⟩ := hq n
    have hT : W ≤ el := by omega
    exact ⟨n, r, le_refl n, hqn,
      waitLoop_return_timeout q W I hI n el r hqn hS (isProcessed_of_98 r h98) hT⟩
  | succ f ih =>
    intro n el hf
    obtain ⟨r, hqn, hS, h98⟩ := hq n
    by_cases hT : W ≤ el
    · exact ⟨n, r, le_refl n, hqn,
        waitLoop_return_timeout q W I hI n el r hqn hS (isProcessed_of_98 r h98) hT⟩
    · rw [waitLoop_step q W I hI n el r hqn hS (isProcessed_of_98 r h98) hT]
      obtain ⟨k, r', hk, hq', heq⟩ := ih (n + 1) (el + I) (by omega)
      exact ⟨k, r', by omega, hq', heq⟩

/-- C1: the validity classifier applies its substring signals in the fixed
precedence order not-on-file, voided, rejected, valid, a later matching signal
unconditionally overwriting the earlier result; in particular a message
containing both a "not reported" phrase and the "valid" phrase classifies as
VALIDO, both at the classifier and through `parseValidationResponse`. -/
theorem validity_classifier_precedence :
    (∀ m : GoStr, classifyMessage m =
      (if goContains m (gs "es un comprobante de pago válido")
          || (goContains m (gs "ha sido informada") && !goContains m (gs "no ha sido informada"))
          || goContains m (gs "AUTORIZADO (Con autorización de imprenta)") then gs "VALIDO"
       else if goContains m (gs "RECHAZADO") || goContains m (gs "rechazada") then gs "RECHAZADO"
       else if goContains m (gs "BAJA") then gs "ANULADO"
       else gs "NO_INFORMADO"))
    ∧ (∀ m : GoStr,
        goContains m (gs "no ha sido informada") = true →
        goContains m (gs "es un comprobante de pago válido") = true →
        classifyMessage m = gs "VALIDO")
    ∧ (∀ (body : GoStr) (code : Int),
        goContains (statusMessageOf body) (gs "no ha sido informada") = true →
        goContains (statusMessageOf body) (gs "es un comprobante de pago válido") = true →
        (parseValidationResponse body code).State = gs "VALIDO") := by
  refine ⟨?_, ?_, ?_⟩
  · intro m
    rw [classifyMessage, classifyFlags_precedence]
  · intro m h2 h5
    rw [classifyMessage, classifyFlags_precedence, h5]
    simp
  · intro body code h2 h5
    show classifyMessage (statusMessageOf body) = gs "VALIDO"
    rw [classifyMessage, classifyFlags_precedence, h5]
    simp

/-- C1 witness: the example message containing both a "not reported" and a
"valid" phrase classifies as VALIDO through `parseValidationResponse`. -/
theorem validity_classifier_precedence_witness :
    goContains (statusMessageOf validoWitnessBody) (gs "no ha sido informada") = true ∧
    goContains (statusMessageOf validoWitnessBody) (gs "es un comprobante de pago válido") = true ∧
    (parseValidationResponse validoWitnessBody 200).State = gs "VALIDO" :=
  ⟨by decide, by decide,
    validity_classifier_precedence.2.2 validoWitnessBody 200 (by decide) (by decide)⟩

/-- C8: a status message matching none of the eight phrase patterns classifies
as NO_INFORMADO (the default), with IsValid false — never UNKNOWN. -/
theorem no_pattern_defaults_to_no_informado (body : GoStr) (code : Int)
    (h1 : goContains (statusMessageOf body) (gs "no existe en los registros de SUNAT") = false)
    (h2 : goContains (statusMessageOf body) (gs "no ha sido informada") = false)
    (h3 : goContains (statusMessageOf body) (gs "BAJA") = false)
    (h4 : goContains (statusMessageOf body) (gs "RECHAZADO") = false)
    (h5 : goContains (statusMessageOf body) (gs "es un comprobante de pago válido") = false)
    (h6 : goContains (statusMessageOf body) (gs "ha sido informada") = false)
    (h7 : goContains (statusMessageOf body) (gs "rechazada") = false)
    (h8 : goContains (statusMessageOf body) (gs "AUTORIZADO (Con autorización de imprenta)") = false) :
    (parseValidationResponse body code).State = gs "NO_INFORMADO" ∧
    (parseValidationResponse body code).IsValid = false := by
  have hstate : classifyMessage (statusMessageOf body) = gs "NO_INFORMADO" := by
    rw [classifyMessage, h1, h2, h3, h4, h5, h6, h7, h8]
    decide
  constructor
  · exact hstate
  · show (validityDetails (classifyMessage (statusMessageOf body))).1 = false
    rw [hstate]
    decide

/-- C8 witness: an unparseable body, whose message defaults to
"Unable to parse response", matches no pattern and yields NO_INFORMADO. -/
theorem no_pattern_defaults_to_no_informado_witness :
    goContains (statusMessageOf (gs "junk")) (gs "no ha sido informada") = false ∧
    (parseValidationResponse (gs "junk") 500).State = gs "NO_INFORMADO" ∧
    (parseValidationResponse (gs "junk") 500).IsValid = false :=
  ⟨by decide,
    (no_pattern_defaults_to_no_informado (gs "junk") 500 (by decide) (by decide) (by decide)
      (by decide) (by decide) (by decide) (by decide) (by decide)).1,
    (no_pattern_defaults_to_no_informado (gs "junk") 500 (by decide) (by decide) (by decide)
      (by decide) (by decide) (by decide) (by decide) (by decide)).2⟩

/-- C10: for every response body and HTTP status code, the State produced by
`parseValidationResponse` is one of exactly VALIDO, ANULADO, RECHAZADO,
NO_INFORMADO; the initial UNKNOWN is unconditionally overwritten. -/
theorem parseValidationResponse_state_total (body : GoStr) (code : Int) :
    (parseValidationResponse body code).State = gs "VALIDO" ∨
    (parseValidationResponse body code).State = gs "ANULADO" ∨
    (parseValidationResponse body code).State = gs "RECHAZADO" ∨
    (parseValidationResponse body code).State = gs "NO_INFORMADO" := by
  show classifyMessage (statusMessageOf body) = gs "VALIDO" ∨ _
  rw [classifyMessage]
  exact classifyFlags_mem _ _ _ _ _ _ _ _

/-- C2: a body containing a SOAP fault marker (either spelling) makes
`parseTicketStatusResponse` report the fault: Success is false, the status
code is left empty (no status-code interpretation), no payload is attached,
and the message is the extracted, entity-decoded faultstring (empty when no
complete faultstring element exists). -/
theorem soap_fault_short_circuits (body ticket : GoStr)
    (hF : (goContains body (gs "<soap-env:Fault") || goContains body (gs "<soap:Fault")) = true) :
    (parseTicketStatusResponse body ticket).Success = false ∧
    (parseTicketStatusResponse body ticket).StatusCode = [] ∧
    (parseTicketStatusResponse body ticket).ApplicationResponse = none ∧
    (parseTicketStatusResponse body ticket).Message =
      (match extractBetween body (gs "<faultstring>") (gs "</faultstring>") with
       | some m => decodeTicketEntities m
       | none => []) := by
  unfold parseTicketStatusResponse
  rw [hF]
  cases hx : extractBetween body (gs "<faultstring>") (gs "</faultstring>") <;> simp [hx]

/-- C2 witness: a faulted body that also contains a `<statusCode>0</statusCode>`
substring reports the fault — Success false, empty status code — and the
decoded faultstring. -/
theorem soap_fault_short_circuits_witness :
    (goContains faultWitnessBody (gs "<soap-env:Fault")
      || goContains faultWitnessBody (gs "<soap:Fault")) = true ∧
    goContains faultWitnessBody (gs "<statusCode>0</statusCode>") = true ∧
    (parseTicketStatusResponse faultWitnessBody (gs "T")).Success = false ∧
    (parseTicketStatusResponse faultWitnessBody (gs "T")).StatusCode = [] ∧
    (parseTicketStatusResponse faultWitnessBody (gs "T")).ApplicationResponse = none ∧
    (parseTicketStatusResponse faultWitnessBody (gs "T")).Message = gs "No vólido <x> & y" :=
  ⟨by decide, by decide,
    (soap_fault_short_circuits faultWitnessBody (gs "T") (by decide)).1,
    (soap_fault_short_circuits faultWitnessBody (gs "T") (by decide)).2.1,
    (soap_fault_short_circuits faultWitnessBody (gs "T") (by decide)).2.2.1,
    by decide⟩

/-- C3: with successive query outcomes 98, 98, 0 (all successful) and a
deadline longer than one poll interval, `WaitForTicketProcessing` returns the
third outcome after exactly 3 queries and 2 sleeps; and, in general, the loop
returns an outcome with status code 0 or 99 as soon as it is seen, with no
further query. -/
theorem wait_returns_third_after_98_98_0 :
    (∀ (q : Nat → Except GoStr TicketStatusResponse) (W I : Int)
       (r0 r1 r2 : TicketStatusResponse),
       q 0 = .ok r0 → q 1 = .ok r1 → q 2 = .ok r2 →
       r0.Success = true → r0.StatusCode = gs "98" →
       r1.Success = true → r1.StatusCode = gs "98" →
       r2.Success = true → r2.StatusCode = gs "0" →
       0 < I → I < W →
       WaitForTicketProcessing q W I = .ok ⟨r2, 3, 2⟩)
    ∧ (∀ (q : Nat → Except GoStr TicketStatusResponse) (W I : Int) (hI : 0 < I)
         (n : Nat) (el : Int) (r : TicketStatusResponse),
         q n = .ok r → (r.StatusCode = gs "0" ∨ r.StatusCode = gs "99") →
         waitLoop q W I hI n el = .ok ⟨r, n + 1, n⟩) := by
  have hproc : ∀ r : TicketStatusResponse,
      (r.StatusCode = gs "0" ∨ r.StatusCode = gs "99") → IsProcessed r = true := by
    intro r h
    cases h with
    | inl h => simp [IsProcessed, h]
    | inr h => simp [IsProcessed, h]
  constructor
  · intro q W I r0 r1 r2 hq0 hq1 hq2 hS0 h98a hS1 h98b hS2 h0 hI hIW
    unfold WaitForTicketProcessing
    rw [dif_neg (by omega : ¬ I ≤ 0)]
    rw [waitLoop_step q W I _ 0 0 r0 hq0 hS0 (isProcessed_of_98 r0 h98a) (by omega)]
    rw [waitLoop_step q W I _ 1 (0 + I) r1 hq1 hS1 (isProcessed_of_98 r1 h98b) (by omega)]
    exact waitLoop_return_processed q W I _ 2 (0 + I + I) r2 hq2 (hproc r2 (Or.inl h0))
  · intro q W I hI n el r hq h
    exact waitLoop_return_processed q W I hI n el r hq (hproc r h)

/-- C3 witness: the scripted 98, 98, 0 stream with interval 1 and deadline 100
yields the processed outcome after 3 queries and 2 sleeps. -/
theorem wait_returns_third_after_98_98_0_witness :
    scripted980Q 0 = .ok (parseTicketStatusResponse inProgressBody (gs "T")) ∧
    scripted980Q 2 = .ok (parseTicketStatusResponse doneBody (gs "T")) ∧
    (parseTicketStatusResponse inProgressBody (gs "T")).StatusCode = gs "98" ∧
    (parseTicketStatusResponse doneBody (gs "T")).StatusCode = gs "0" ∧
    WaitForTicketProcessing scripted980Q 100 1 =
      .ok ⟨parseTicketStatusResponse doneBody (gs "T"), 3, 2⟩ :=
  ⟨rfl, rfl, by decide, by decide,
    wait_returns_third_after_98_98_0.1 scripted980Q 100 1
      (parseTicketStatusResponse inProgressBody (gs "T"))
      (parseTicketStatusResponse inProgressBody (gs "T"))
      (parseTicketStatusResponse doneBody (gs "T"))
      rfl rfl rfl (by decide) (by decide) (by decide) (by decide) (by decide) (by decide)
      (by decide) (by decide)⟩

/-- C4 counterexample: an outcome reachable through the real parser — a
`getStatusResponse` body with no `<statusCode>` element gives Success true and
an empty status code, which is not "98" — is NOT treated as terminal: the loop
issues a second query (2 queries, 1 sleep) and returns the second outcome,
refuting "only 98 is non-terminal / never retried". -/
theorem wait_terminal_counterexample :
    (parseTicketStatusResponse blankCodeBody (gs "T")).StatusCode ≠ gs "98" ∧
    (parseTicketStatusResponse blankCodeBody (gs "T")).Success = true ∧
    blankThenDoneQ 0 = .ok (parseTicketStatusResponse blankCodeBody (gs "T")) ∧
    WaitForTicketProcessing blankThenDoneQ 100 1 =
      .ok ⟨parseTicketStatusResponse doneBody (gs "T"), 2, 1⟩ := by
  refine ⟨by decide, by decide, rfl, ?_⟩
  unfold WaitForTicketProcessing
  rw [dif_neg (by omega : ¬ (1 : Int) ≤ 0)]
  rw [waitLoop_step blankThenDoneQ 100 1 _ 0 0
    (parseTicketStatusResponse blankCodeBody (gs "T")) rfl (by decide) (by decide) (by decide)]
  exact waitLoop_return_processed blankThenDoneQ 100 1 _ 1 (0 + 1)
    (parseTicketStatusResponse doneBody (gs "T")) rfl (by decide)

/-- C4 amended: an outcome with Success false (fault, parse failure,
unrecognised body) is terminal and returned without a further query; among
successful outcomes, exactly status codes 0 and 99 are terminal; a successful
outcome with any other status code — "98", empty, or unrecognised — causes a
retry while the deadline has not passed. -/
theorem wait_terminal_amended :
    (∀ (q : Nat → Except GoStr TicketStatusResponse) (W I : Int) (hI : 0 < I)
       (n : Nat) (el : Int) (r : TicketStatusResponse),
       q n = .ok r → r.Success = false →
       waitLoop q W I hI n el = .ok ⟨r, n + 1, n⟩)
    ∧ (∀ (q : Nat → Except GoStr TicketStatusResponse) (W I : Int) (hI : 0 < I)
         (n : Nat) (el : Int) (r : TicketStatusResponse),
         q n = .ok r → (r.StatusCode = gs "0" ∨ r.StatusCode = gs "99") →
         waitLoop q W I hI n el = .ok ⟨r, n + 1, n⟩)
    ∧ (∀ (q : Nat → Except GoStr TicketStatusResponse) (W I : Int) (hI : 0 < I)
         (n : Nat) (el : Int) (r : TicketStatusResponse),
         q n = .ok r → r.Success = true →
         r.StatusCode ≠ gs "0" → r.StatusCode ≠ gs "99" → ¬ W ≤ el →
         waitLoop q W I hI n el = waitLoop q W I hI (n + 1) (el + I)) := by
  refine ⟨waitLoop_return_failure, ?_, ?_⟩
  · intro q W I hI n el r hq h
    refine waitLoop_return_processed q W I hI n el r hq ?_
    cases h with
    | inl h => simp [IsProcessed, h]
    | inr h => simp [IsProcessed, h]
  · intro q W I hI n el r hq hS h0 h99 hT
    refine waitLoop_step q W I hI n el r hq hS ?_ hT
    simp [IsProcessed]
    exact ⟨h0, h99⟩

/-- C4 amended witness: a body not recognised at all parses to a failed
outcome, which the loop returns after a single query; and the blank-status
outcome (Success true, code neither 0 nor 99) makes the loop step to a second
query. -/
theorem wait_terminal_amended_witness :
    (parseTicketStatusResponse (gs "zzz") (gs "T")).Success = false ∧
    waitLoop unrecognizedQ 100 1 posOneInt 0 0 =
      .ok ⟨parseTicketStatusResponse (gs "zzz") (gs "T"), 1, 0⟩ ∧
    waitLoop blankThenDoneQ 100 1 posOneInt 0 0 =
      waitLoop blankThenDoneQ 100 1 posOneInt 1 (0 + 1) :=
  ⟨by decide,
    wait_terminal_amended.1 unrecognizedQ 100 1 posOneInt 0 0
      (parseTicketStatusResponse (gs "zzz") (gs "T")) rfl (by decide),
    wait_terminal_amended.2.2 blankThenDoneQ 100 1 posOneInt 0 0
      (parseTicketStatusResponse blankCodeBody (gs "T")) rfl (by decide) (by decide) (by decide)
      (by omega)⟩

/-- C5: when every query returns a successful in-progress ("98") outcome,
`WaitForTicketProcessing` terminates normally (no error), returning the
last-seen outcome with its Message overwritten to the timeout message; the
counters show the last query was the one whose outcome is returned. -/
theorem wait_timeout_returns_last_seen (q : Nat → Except GoStr TicketStatusResponse)
    (W I : Int) (hI : 0 < I)
    (hq : ∀ n, ∃ r, q n = .ok r ∧ r.Success = true ∧ r.StatusCode = gs "98") :
    ∃ k r, q k = .ok r ∧
      WaitForTicketProcessing q W I =
        .ok ⟨{ r with Message := timeoutMessage }, k + 1, k⟩ := by
  unfold WaitForTicketProcessing
  rw [dif_neg (by omega : ¬ I ≤ 0)]
  obtain ⟨k, r, _, hqk, heq⟩ :=
    waitLoop_allInProgress q W I (by omega) hq (W - 0).toNat 0 0 (le_refl _)
  exact ⟨k, r, hqk, heq⟩

/-- C5 witness: with deadline 3 and interval 1 against an always-98 stream,
the wait returns normally with the timeout message. -/
theorem wait_timeout_returns_last_seen_witness :
    always98Q 0 = .ok (parseTicketStatusResponse inProgressBody (gs "T")) ∧
    (parseTicketStatusResponse inProgressBody (gs "T")).StatusCode = gs "98" ∧
    (∃ k r, always98Q k = .ok r ∧
      WaitForTicketProcessing always98Q 3 1 =
        .ok ⟨{ r with Message := timeoutMessage }, k + 1, k⟩) :=
  ⟨rfl, by decide,
    wait_timeout_returns_last_seen always98Q 3 1 (by decide)
      (fun n => ⟨parseTicketStatusResponse inProgressBody (gs "T"), rfl, by decide, by decide⟩)⟩

/-- C6: the embedded `<content>` is decoded only for status codes 0 and 99.
With status 0 and base64 content that decodes to non-empty bytes, the payload
is those bytes; with malformed base64 the payload stays absent while Success,
StatusCode and Message are unaffected; a status-98 outcome never carries a
payload. -/
theorem content_decoded_only_when_terminal :
    (∀ (body ticket cb : GoStr) (bs : List Nat),
       (goContains body (gs "<soap-env:Fault") || goContains body (gs "<soap:Fault")) = false →
       (goContains body (gs "<br:getStatusResponse") || goContains body (gs "getStatusResponse")) = true →
       extractBetween body (gs "<statusCode>") (gs "</statusCode>") = some (gs "0") →
       extractBetween body (gs "<content>") (gs "</content>") = some cb →
       base64Decode cb = some bs → bs ≠ [] →
       (parseTicketStatusResponse body ticket).ApplicationResponse = some bs ∧
       (parseTicketStatusResponse body ticket).Success = true ∧
       (parseTicketStatusResponse body ticket).StatusCode = gs "0" ∧
       (parseTicketStatusResponse body ticket).Message =
         gs "Comunicación de baja procesada exitosamente")
    ∧ (∀ (body ticket cb : GoStr),
         (goContains body (gs "<soap-env:Fault") || goContains body (gs "<soap:Fault")) = false →
         (goContains body (gs "<br:getStatusResponse") || goContains body (gs "getStatusResponse")) = true →
         extractBetween body (gs "<statusCode>") (gs "</statusCode>") = some (gs "0") →
         extractBetween body (gs "<content>") (gs "</content>") = some cb →
         base64Decode cb = none →
         (parseTicketStatusResponse body ticket).ApplicationResponse = none ∧
         (parseTicketStatusResponse body ticket).Success = true ∧
         (parseTicketStatusResponse body ticket).StatusCode = gs "0" ∧
         (parseTicketStatusResponse body ticket).Message =
           gs "Comunicación de baja procesada exitosamente")
    ∧ (∀ (body ticket : GoStr),
         (goContains body (gs "<soap-env:Fault") || goContains body (gs "<soap:Fault")) = false →
         (goContains body (gs "<br:getStatusResponse") || goContains body (gs "getStatusResponse")) = true →
         extractBetween body (gs "<statusCode>") (gs "</statusCode>") = some (gs "98") →
         (parseTicketStatusResponse body ticket).ApplicationResponse = none ∧
         (parseTicketStatusResponse body ticket).StatusCode = gs "98") := by
  refine ⟨?_, ?_, ?_⟩
  · intro body ticket cb bs hF hR hSC hCont hDec _
    unfold parseTicketStatusResponse
    rw [hF, hR, hSC]
    simp [applyContentDecode, hCont, hDec]
  · intro body ticket cb hF hR hSC hCont hDec
    unfold parseTicketStatusResponse
    rw [hF, hR, hSC]
    simp [applyContentDecode, hCont, hDec]
  · intro body ticket hF hR hSC
    unfold parseTicketStatusResponse
    rw [hF, hR, hSC]
    have h98 : ¬ (gs "98" = gs "0") := by decide
    simp [h98]

/-- C6 witness: concrete bodies exercising all three parts — well-formed
base64 `QUJD` decoding to bytes 65 66 67; malformed base64 `!!!!`; and a
status-98 body carrying a content element that is ignored. -/
theorem content_decoded_only_when_terminal_witness :
    (parseTicketStatusResponse contentOkBody (gs "T")).ApplicationResponse = some [65, 66, 67] ∧
    (parseTicketStatusResponse contentBadBody (gs "T")).ApplicationResponse = none ∧
    (parseTicketStatusResponse contentBadBody (gs "T")).Success = true ∧
    (parseTicketStatusResponse contentBadBody (gs "T")).StatusCode = gs "0" ∧
    (parseTicketStatusResponse content98Body (gs "T")).ApplicationResponse = none :=
  ⟨(content_decoded_only_when_terminal.1 contentOkBody (gs "T") (gs "QUJD") [65, 66, 67]
      (by decide) (by decide) (by decide) (by decide) (by decide) (by decide)).1,
   (content_decoded_only_when_terminal.2.1 contentBadBody (gs "T") (gs "!!!!")
      (by decide) (by decide) (by decide) (by decide) (by decide)).1,
   (content_decoded_only_when_terminal.2.1 contentBadBody (gs "T") (gs "!!!!")
      (by decide) (by decide) (by decide) (by decide) (by decide)).2.1,
   (content_decoded_only_when_terminal.2.1 contentBadBody (gs "T") (gs "!!!!")
      (by decide) (by decide) (by decide) (by decide) (by decide)).2.2.1,
   (content_decoded_only_when_terminal.2.2 content98Body (gs "T")
      (by decide) (by decide) (by decide)).1⟩

/-- C7: for a non-empty ticket list, `BatchQueryTickets` returns one outcome
per ticket, in input order; a per-item query error is captured into that
item's outcome (Success false, Error set, message prefixed) instead of
aborting the batch, and a successful item's outcome is the query response
unchanged. -/
theorem batch_preserves_order_and_captures_errors
    (q : GoStr → Except GoStr TicketStatusResponse) (tickets : List GoStr)
    (hne : tickets ≠ []) :
    BatchQueryTickets q tickets = .ok (tickets.map (itemOutcome q)) ∧
    (tickets.map (itemOutcome q)).length = tickets.length ∧
    (∀ t r, q t = .ok r → itemOutcome q t = r) ∧
    (∀ t e, q t = .error e →
       (itemOutcome q t).Success = false ∧
       (itemOutcome q t).Error = some e ∧
       (itemOutcome q t).Message = (gs "Error querying ticket: ") ++ e ∧
       (itemOutcome q t).Ticket = t) := by
  refine ⟨?_, List.length_map _ _, ?_, ?_⟩
  · unfold BatchQueryTickets
    rw [if_neg hne, batchLoop_eq_append_map]
    simp
  · intro t r hq
    unfold itemOutcome
    rw [hq]
  · intro t e hq
    unfold itemOutcome
    rw [hq]
    exact ⟨rfl, rfl, rfl, rfl⟩

/-- C7 witness: the two-ticket batch where querying A fails with a transport
error and B succeeds returns exactly two outcomes in input order, A's flagged
failed with the error captured, B's the parsed response unchanged. -/
theorem batch_preserves_order_and_captures_errors_witness :
    BatchQueryTickets batchDemoQ [gs "A", gs "B"] =
      .ok [itemOutcome batchDemoQ (gs "A"), itemOutcome batchDemoQ (gs "B")] ∧
    (itemOutcome batchDemoQ (gs "A")).Success = false ∧
    (itemOutcome batchDemoQ (gs "A")).Error = some (gs "connection refused") ∧
    (itemOutcome batchDemoQ (gs "A")).Message =
      (gs "Error querying ticket: ") ++ gs "connection refused" ∧
    itemOutcome batchDemoQ (gs "B") = parseTicketStatusResponse doneBody (gs "B") := by
  have h := batch_preserves_order_and_captures_errors batchDemoQ [gs "A", gs "B"] (by decide)
  refine ⟨?_, (h.2.2.2 (gs "A") (gs "connection refused") rfl).1,
    (h.2.2.2 (gs "A") (gs "connection refused") rfl).2.1,
    (h.2.2.2 (gs "A") (gs "connection refused") rfl).2.2.1,
    h.2.2.1 (gs "B") (parseTicketStatusResponse doneBody (gs "B")) rfl⟩
  rw [h.1]
  rfl

/-- C9 counterexample: the claim that every response parser decodes all four
entities fails — `parseVoidedDocumentsResponse` and `parseResponse` leave
`&lt;` in the extracted faultstring untouched (they only decode `&#243;`),
while `decodeTicketEntities`, used by `parseTicketStatusResponse`, would have
produced the decoded form. -/
theorem entity_decoding_counterexample :
    (parseVoidedDocumentsResponse undecodedFaultBody).Message = gs "a&lt;b" ∧
    (parseResponse undecodedFaultBody).Message = gs "a&lt;b" ∧
    gs "a&lt;b" ≠ gs "a<b" ∧
    decodeTicketEntities (gs "a&lt;b") = gs "a<b" := by
  decide

/-- C9 amended: `parseTicketStatusResponse` applies exactly the four entity
replacements `&#243;`→`ó`, `&lt;`→`<`, `&gt;`→`>`, `&amp;`→`&` (in that
order) to the extracted faultstring, while `parseVoidedDocumentsResponse` and
`parseResponse` apply only the `&#243;`→`ó` replacement. -/
theorem entity_decoding_amended :
    (∀ (body ticket m : GoStr),
       (goContains body (gs "<soap-env:Fault") || goContains body (gs "<soap:Fault")) = true →
       extractBetween body (gs "<faultstring>") (gs "</faultstring>") = some m →
       (parseTicketStatusResponse body ticket).Message = decodeTicketEntities m)
    ∧ (∀ (body m : GoStr),
         goContains body (gs "<soap-env:Fault") = true →
         extractBetween body (gs "<faultstring>") (gs "</faultstring>") = some m →
         (parseVoidedDocumentsResponse body).Message = goReplaceAll m (gs "&#243;") (gs "ó"))
    ∧ (∀ (body m : GoStr),
         goContains body (gs "<soap-env:Fault") = true →
         extractBetween body (gs "<faultstring>") (gs "</faultstring>") = some m →
         (parseResponse body).Message = goReplaceAll m (gs "&#243;") (gs "ó"))
    ∧ decodeTicketEntities (gs "&#243;&lt;&gt;&amp;") = gs "ó<>&" := by
  refine ⟨?_, ?_, ?_, by decide⟩
  · intro body ticket m hF hm
    unfold parseTicketStatusResponse
    rw [hF, hm]
    simp
  · intro body m hF hm
    unfold parseVoidedDocumentsResponse
    rw [hF, hm]
    simp
  · intro body m hF hm
    unfold parseResponse
    rw [hF, hm]
    simp

/-- C9 amended witness: the three parsers on the same faulted body containing
all four entities — the ticket parser decodes all four, the other two only
`&#243;`. -/
theorem entity_decoding_amended_witness :
    (parseTicketStatusResponse allEntitiesFaultBody (gs "T")).Message =
      decodeTicketEntities (gs "x&#243;&lt;&gt;&amp;y") ∧
    decodeTicketEntities (gs "x&#243;&lt;&gt;&amp;y") = gs "xó<>&y" ∧
    (parseVoidedDocumentsResponse allEntitiesFaultBody).Message =
      goReplaceAll (gs "x&#243;&lt;&gt;&amp;y") (gs "&#243;") (gs "ó") ∧
    (parseResponse allEntitiesFaultBody).Message =
      goReplaceAll (gs "x&#243;&lt;&gt;&amp;y") (gs "&#243;") (gs "ó") ∧
    goReplaceAll (gs "x&#243;&lt;&gt;&amp;y") (gs "&#243;") (gs "ó") = gs "xó&lt;&gt;&amp;y" :=
  ⟨entity_decoding_amended.1 allEntitiesFaultBody (gs "T") (gs "x&#243;&lt;&gt;&amp;y")
      (by decide) (by decide),
   by decide,
   entity_decoding_amended.2.1 allEntitiesFaultBody (gs "x&#243;&lt;&gt;&amp;y")
      (by decide) (by decide),
   entity_decoding_amended.2.2.1 allEntitiesFaultBody (gs "x&#243;&lt;&gt;&amp;y")
      (by decide) (by decide),
   by decide⟩
